import Mathlib

/-!
Verification of the CortexLab pipeline-orchestration engine
(`backend/app/agents` and `backend/app/core`), as a shallow embedding in
Lean 4.  Python dictionaries become association lists or typed records,
the LangGraph state machines become a step function over stage lists,
the SQLAlchemy run rows become records, and the background tasks become
pure functions from a graph outcome to the row updates and event rows
they commit.  External collaborators (the LLM provider, the retrieval
search, the database clock) are passed in as explicit parameters.
-/

namespace CortexLab

/- ────────────────────────────────────────────────────────────────────
   Python dict semantics for the `\x7b**state, "k": v, ...\x7d` update
   pattern used by every agent node (e.g. gap_miner.py lines 108-117,
   literature_scout.py lines 73-82).  A dict is an ordered association
   list with unique keys; spreading `**state` copies all entries, and
   each literal key then overwrites in place (keeping the original key
   position) or appends at the end.
   ──────────────────────────────────────────────────────────────────── -/

/-- Lookup of a key in a Python dict (`state.get(k)`), first match. -/
def pyLookup {α : Type} : List (String × α) → String → Option α
  | [], _ => none
  | p :: d, k => if p.1 = k then some p.2 else pyLookup d k

/-- Key-membership test for a Python dict. -/
def hasKey {α : Type} : List (String × α) → String → Bool
  | [], _ => false
  | p :: d, k => p.1 = k || hasKey d k

/-- In-place overwrite of an existing key (keeps the key's position). -/
def overwrite {α : Type} (d : List (String × α)) (k : String) (v : α) :
    List (String × α) :=
  d.map (fun p => if p.1 = k then (k, v) else p)

/-- Assignment `d[k] = v`: overwrite the entry in place when the key is
present, otherwise append a new entry at the end. -/
def dictSet {α : Type} (d : List (String × α)) (k : String) (v : α) :
    List (String × α) :=
  if hasKey d k then overwrite d k v else d ++ [(k, v)]

/-- The dict-literal spread `\x7b**d, k1: v1, ..., kn: vn\x7d`: a copy of `d`
updated by each literal entry in order.  This is the return expression
of every agent node. -/
def dictMerge {α : Type} (d : List (String × α)) (u : List (String × α)) :
    List (String × α) :=
  u.foldl (fun acc p => dictSet acc p.1 p.2) d

/- ────────────────────────────────────────────────────────────────────
   JSON values and a decoder.

   The nodes call Python's `json.loads` on the extracted text; we model
   the decoder for the JSON subset the pipelines exchange (objects,
   arrays, strings without escape sequences, integers, booleans, null).
   ──────────────────────────────────────────────────────────────────── -/

inductive Json where
  | null : Json
  | jbool : Bool → Json
  | jnum : Int → Json
  | jstr : String → Json
  | jarr : List Json → Json
  | jobj : List (String × Json) → Json
deriving Repr, Inhabited

def lbrace : Char := Char.ofNat 123

def rbrace : Char := Char.ofNat 125

def isWsChar (c : Char) : Bool :=
  c = ' ' || c = '\n' || c = '\t' || c = '\r'

def skipWs : List Char → List Char
  | [] => []
  | c :: cs => if isWsChar c then skipWs cs else c :: cs

/-- Consume the body of a double-quoted string (no escape handling),
returning the characters before the closing quote and the remainder. -/
def takeStringBody : List Char → Option (List Char × List Char)
  | [] => none
  | c :: cs =>
    if c = '"' then some ([], cs)
    else (takeStringBody cs).map (fun p => (c :: p.1, p.2))

def takeDigits : List Char → (List Char × List Char)
  | [] => ([], [])
  | c :: cs =>
    if c.isDigit then
      let p := takeDigits cs
      (c :: p.1, p.2)
    else ([], c :: cs)

def digitsToNat (ds : List Char) : Nat :=
  ds.foldl (fun acc c => acc * 10 + (c.toNat - 48)) 0

mutual

def parseVal : Nat → List Char → Option (Json × List Char)
  | 0, _ => none
  | fuel + 1, cs =>
    match skipWs cs with
    | 'n' :: 'u' :: 'l' :: 'l' :: rest => some (Json.null, rest)
    | 't' :: 'r' :: 'u' :: 'e' :: rest => some (Json.jbool true, rest)
    | 'f' :: 'a' :: 'l' :: 's' :: 'e' :: rest => some (Json.jbool false, rest)
    | '"' :: rest =>
      (takeStringBody rest).map (fun p => (Json.jstr (String.mk p.1), p.2))
    | '[' :: rest =>
      (match skipWs rest with
       | ']' :: rest' => some (Json.jarr [], rest')
       | other => (parseArrItems fuel other).map (fun p => (Json.jarr p.1, p.2)))
    | '-' :: rest =>
      (match takeDigits rest with
       | ([], _) => none
       | (ds, rest') => some (Json.jnum (-(digitsToNat ds : Int)), rest'))
    | c :: rest =>
      if c = lbrace then
        match skipWs rest with
        | d :: rest' =>
          if d = rbrace then some (Json.jobj [], rest')
          else (parseObjItems fuel (d :: rest')).map (fun p => (Json.jobj p.1, p.2))
        | [] => none
      else if c.isDigit then
        match takeDigits (c :: rest) with
        | ([], _) => none
        | (ds, rest') => some (Json.jnum (digitsToNat ds : Int), rest')
      else none
    | [] => none

def parseArrItems : Nat → List Char → Option (List Json × List Char)
  | 0, _ => none
  | fuel + 1, cs => do
    let (v, rest) ← parseVal fuel cs
    match skipWs rest with
    | ',' :: rest' => do
      let (vs, rest'') ← parseArrItems fuel rest'
      pure (v :: vs, rest'')
    | ']' :: rest' => pure ([v], rest')
    | _ => none

def parseObjItems : Nat → List Char → Option (List (String × Json) × List Char)
  | 0, _ => none
  | fuel + 1, cs =>
    match skipWs cs with
    | '"' :: rest => do
      let (key, rest1) ← takeStringBody rest
      match skipWs rest1 with
      | ':' :: rest2 => do
        let (v, rest3) ← parseVal fuel rest2
        match skipWs rest3 with
        | ',' :: rest4 => do
          let (kvs, rest5) ← parseObjItems fuel rest4
          pure ((String.mk key, v) :: kvs, rest5)
        | d :: rest4 =>
          if d = rbrace then pure ((String.mk key, v) :: [], rest4) else none
        | [] => none
      | _ => none
    | _ => none

end

/-- Model of `json.loads`: decode one JSON value and require only
whitespace after it; `none` models a raised `JSONDecodeError`. -/
def jsonLoads (s : String) : Option Json :=
  match parseVal (s.length + 1) s.toList with
  | some (v, rest) => if skipWs rest = [] then some v else none
  | none => none

/- ────────────────────────────────────────────────────────────────────
   Structured-output extraction.

   Every node parses the provider reply with the same pattern
   (scope_clarifier.py lines 68-76, trend_synthesizer.py lines 87-94,
   gap_miner.py, direction_generator.py, deep_dive_scout.py):

     if "```json" in content:
         content = content.split("```json")[1].split("```")[0]
     elif "```" in content:
         content = content.split("```")[1].split("```")[0]
     result = json.loads(content.strip())
   ──────────────────────────────────────────────────────────────────── -/

/-- Left-to-right, non-overlapping scan for the separator, as Python's
`str.split(sep)` performs.  The fuel argument (instantiated with the
input length, enough for one step per consumed character) keeps the
recursion structural. -/
def pySplitAux (sep : List Char) : Nat → List Char → List Char → List (List Char)
  | 0, rest, acc => [acc.reverse ++ rest]
  | fuel + 1, s, acc =>
    match s with
    | [] => [acc.reverse]
    | c :: cs =>
      if sep.isPrefixOf (c :: cs) then
        acc.reverse :: pySplitAux sep fuel (List.drop sep.length (c :: cs)) []
      else
        pySplitAux sep fuel cs (c :: acc)

/-- Python's `s.split(sep)` for a non-empty separator. -/
def pySplit (s sep : String) : List String :=
  (pySplitAux sep.toList s.toList.length s.toList []).map String.mk

/-- Python's `needle in hay` membership test: the needle occurs iff
splitting on it yields more than one part. -/
def pyIn (needle hay : String) : Bool :=
  2 ≤ (pySplit hay needle).length

/-- Python's `s.split(sep)[1]` (callers guard that the separator occurs,
so the list has at least two parts). -/
def pySplitSecond (s sep : String) : String :=
  ((pySplit s sep).drop 1).headD ""

/-- Python's `s.split(sep)[0]`. -/
def pySplitFirst (s sep : String) : String :=
  (pySplit s sep).headD s

/-- Python's `s.strip()`: drop leading and trailing whitespace. -/
def pyStrip (s : String) : String :=
  String.mk ((skipWs (skipWs s.toList).reverse).reverse)

/-- The fenced-block extraction shared by all agent nodes. -/
def extract_json_content (content : String) : String :=
  if pyIn "```json" content then
    pySplitFirst (pySplitSecond content "```json") "```"
  else if pyIn "```" content then
    pySplitFirst (pySplitSecond content "```") "```"
  else content

/-- Extraction followed by `strip` and `json.loads`, as the nodes do. -/
def parse_structured (content : String) : Option Json :=
  jsonLoads (pyStrip (extract_json_content content))

/- ────────────────────────────────────────────────────────────────────
   Stable sorting.

   `sorted(..., key=..., reverse=...)` / `list.sort(...)` in the nodes
   are stable sorts; modelled as stable insertion by a Boolean
   "may come first" relation.
   ──────────────────────────────────────────────────────────────────── -/

def insertBy {α : Type} (r : α → α → Bool) (x : α) : List α → List α
  | [] => [x]
  | y :: ys => if r x y then x :: y :: ys else y :: insertBy r x ys

def stableSortBy {α : Type} (r : α → α → Bool) : List α → List α
  | [] => []
  | x :: xs => insertBy r x (stableSortBy r xs)

/- ────────────────────────────────────────────────────────────────────
   Literature-scout paper collection
   (literature_scout.py lines 53-67):

     all_papers, seen_ids = [], set()
     for query in search_queries[:5]:
         papers = await search_google_scholar(query, limit=20)
         for paper in papers:
             pid = paper.get("id") or paper.get("title", "")
             if pid and pid not in seen_ids:
                 seen_ids.add(pid); all_papers.append(paper)
     all_papers.sort(key=lambda x: x.get("citation_count") or 0, reverse=True)
     all_papers = all_papers[:50]
   ──────────────────────────────────────────────────────────────────── -/

/-- A retrieved item, per the retrieval-collaborator interface
(`search(query, limit) -> list of \x7bid, title, abstract, year,
citation_count, ...\x7d`); every field may be missing. -/
structure PaperItem where
  id : Option String := none
  title : Option String := none
  abstract : Option String := none
  year : Option Int := none
  citation_count : Option Int := none
deriving DecidableEq, Repr

/-- `paper.get("id") or paper.get("title", "")`: Python `or` falls
through on a falsy (absent or empty) id. -/
def pidOf (p : PaperItem) : String :=
  let i := p.id.getD ""
  if i = "" then p.title.getD "" else i

/-- `x.get("citation_count") or 0`: absent or `None` counts as zero. -/
def ccOf (p : PaperItem) : Int := p.citation_count.getD 0

/-- Descending-by-citation-count "may come first" relation
(`sort(key=..., reverse=True)` is a stable descending sort). -/
def paperDescBefore (p q : PaperItem) : Bool := decide (ccOf q ≤ ccOf p)

/-- The nested dedup loop, flattened over the concatenated search
results (the `seen_ids` set threads across queries unchanged). -/
def collectPapers : List PaperItem → List String → List PaperItem
  | [], _ => []
  | p :: ps, seen =>
    let pid := pidOf p
    if pid ≠ "" ∧ pid ∉ seen then p :: collectPapers ps (pid :: seen)
    else collectPapers ps seen

/-- The paper list the literature-scout stage builds from the retrieved
items: dedup loop, stable descending sort by citation count, cap 50. -/
def literature_scout_papers (retrieved : List PaperItem) : List PaperItem :=
  (stableSortBy paperDescBefore (collectPapers retrieved [])).take 50

/-- Key as the CLAIM words it: the `id` field, falling back to `title`
only when `id` is absent. -/
def specKeyOf (p : PaperItem) : String :=
  match p.id with
  | some s => s
  | none => p.title.getD ""

/-- Deduplication as the CLAIM words it: keep the first occurrence of
every key (no item is discarded outright). -/
def specDedupKeepFirst : List PaperItem → List PaperItem
  | [] => []
  | p :: ps =>
    p :: specDedupKeepFirst (ps.filter (fun q => specKeyOf q ≠ specKeyOf p))
termination_by l => l.length
decreasing_by
  exact Nat.lt_succ_of_le (List.length_filter_le _ _)

/-- The paper-list construction exactly as the claim states it. -/
def spec_paper_list (retrieved : List PaperItem) : List PaperItem :=
  (stableSortBy paperDescBefore (specDedupKeepFirst retrieved)).take 50

/-- Deduplication as the CODE does it, phrased declaratively: the key is
the id falling back to the title when the id is absent *or empty*, items
whose key is empty are discarded, and the first occurrence of every
remaining key is kept. -/
def dedupKeepFirst : List PaperItem → List PaperItem
  | [] => []
  | p :: ps =>
    if pidOf p = "" then dedupKeepFirst ps
    else p :: dedupKeepFirst (ps.filter (fun q => pidOf q ≠ pidOf p))
termination_by l => l.length
decreasing_by
  · exact Nat.lt_succ_self _
  · exact Nat.lt_succ_of_le (List.length_filter_le _ _)

/- ────────────────────────────────────────────────────────────────────
   Typed pipeline states (state.py) and the agent nodes the claims
   touch.  The TypedDict states always carry every key, so they embed
   as records; `Optional` fields embed as `Option`.
   ──────────────────────────────────────────────────────────────────── -/

/-- A progress note appended to `state["messages"]`. -/
structure MsgNote where
  type : String
  agent : String
  content : String
deriving DecidableEq, Repr

structure GapItem where
  description : Option String := none
deriving DecidableEq, Repr

structure DirectionItem where
  id : Option String := none
  title : Option String := none
  description : Option String := none
  novelty_angle : Option String := none
  expected_outcomes : Option (List String) := none
  feasibility_score : Option Int := none
  contribution_type : Option String := none
  minimum_experiments : Option (List String) := none
deriving DecidableEq, Repr

/-- `DiscoveryState` (state.py lines 48-75). -/
structure DiscState where
  user_query : String := ""
  project_id : String := ""
  domain_boundaries : Option Json := none
  search_queries : Option (List String) := none
  constraints : Option Json := none
  papers : Option (List PaperItem) := none
  themes : Option Json := none
  trends : Option Json := none
  gaps : Option (List GapItem) := none
  directions : Option (List DirectionItem) := none
  current_step : String := "starting"
  error : Option String := none
  messages : List MsgNote := []
deriving Repr

/-- `DeepDiveState` (state.py lines 78-100). -/
structure DDState where
  project_id : String := ""
  direction : Json := Json.jobj []
  baseline_methods : Option Json := none
  datasets : Option Json := none
  metrics : Option Json := none
  failure_cases : Option Json := none
  hypotheses : Option Json := none
  ablations : Option Json := none
  training_protocol : Option Json := none
  evaluation_plan : Option Json := none
  compute_estimate : Option Json := none
  current_step : String := "starting"
  error : Option String := none
  messages : List MsgNote := []
deriving Repr

/-- `PaperState` (state.py lines 103-130). -/
structure PapState where
  project_id : String := ""
  direction : Json := Json.jobj []
  deep_dive_report : String := ""
  experiment_data : Json := Json.jarr []
  outline : Option Json := none
  title : Option String := none
  abstract : Option String := none
  introduction : Option String := none
  related_work : Option String := none
  method : Option String := none
  experiments : Option String := none
  results : Option String := none
  discussion : Option String := none
  conclusion : Option String := none
  references : Option Json := none
  paper_markdown : Option String := none
  current_step : String := "starting"
  error : Option String := none
  messages : List MsgNote := []
deriving Repr

/-- Python truthiness of `state.get("error")` for `error :
Optional[str]`: `None` and `""` are falsy, any other string truthy. -/
def errTruthy : Option String → Bool
  | none => false
  | some s => s ≠ ""

/-- The three pipeline state shapes all expose `current_step` and
`error`, which is all the router reads. -/
class AgentStateLike (σ : Type) where
  current_step : σ → String
  error : σ → Option String

instance : AgentStateLike DiscState :=
  ⟨DiscState.current_step, DiscState.error⟩

instance : AgentStateLike DDState :=
  ⟨DDState.current_step, DDState.error⟩

instance : AgentStateLike PapState :=
  ⟨PapState.current_step, PapState.error⟩

/-- `_route_or_error` (graph.py lines 16-23): route to END when
`state.get("current_step") == "error" or state.get("error")`. -/
def route_or_error {σ : Type} [AgentStateLike σ] (s : σ) : Bool :=
  AgentStateLike.current_step s = "error" || errTruthy (AgentStateLike.error s)

/-- Plain sequential composition of a stage list (no routing). -/
def runSeq {σ : Type} (fs : List (σ → σ)) (s : σ) : σ :=
  fs.foldl (fun a f => f a) s

/-- Execution of a compiled graph: stages run in declared order; after
each stage the conditional edge checks `route_or_error` and jumps to END
on failure (the final stage's unconditional edge to END yields the same
final state).  The second component counts how many stages were
invoked.  Each node returns a full `\x7b**state, ...\x7d` dict, so
LangGraph's merge of the returned update equals the returned state. -/
def runGraph {σ : Type} [AgentStateLike σ] : List (σ → σ) → σ → σ × Nat
  | [], s => (s, 0)
  | f :: fs, s =>
    let s1 := f s
    if route_or_error s1 then (s1, 1)
    else
      let r := runGraph fs s1
      (r.1, r.2 + 1)

/-- `create_discovery_graph` (graph.py lines 28-76): the ordered stage
list; the node functions are parameters because each closes over
provider calls. -/
def create_discovery_graph
    (scope_clarifier literature_scout trend_synthesizer gap_miner
      direction_generator : DiscState → DiscState) :
    List (DiscState → DiscState) :=
  [scope_clarifier, literature_scout, trend_synthesizer, gap_miner,
   direction_generator]

/-- `create_deep_dive_graph` (graph.py lines 81-102). -/
def create_deep_dive_graph (deep_dive_scout experiment_designer : DDState → DDState) :
    List (DDState → DDState) :=
  [deep_dive_scout, experiment_designer]

/-- `create_paper_graph` (graph.py lines 107-128). -/
def create_paper_graph (paper_writer paper_editor : PapState → PapState) :
    List (PapState → PapState) :=
  [paper_writer, paper_editor]

/- ────────────────────────────────────────────────────────────────────
   The two discovery nodes whose pre-provider logic the claims exercise.
   ──────────────────────────────────────────────────────────────────── -/

def fallbackQueries (base : String) : List String :=
  [base, base ++ " survey", base ++ " review", base ++ " state of the art",
   base ++ " recent advances"]

/-- The query list literature_scout ends up with: `search_queries` from
the state, or five fallback queries generated from a non-blank
`user_query` (literature_scout.py lines 22-41). -/
def effectiveQueries (s : DiscState) : List String :=
  let sq := s.search_queries.getD []
  if sq = [] ∧ s.user_query ≠ "" then
    let base := pyStrip s.user_query
    if base = "" then sq else fallbackQueries base
  else sq

/-- The search loop; the first raised transport error aborts the loop,
matching the `try` around it. -/
def runSearches (search : String → Except String (List PaperItem)) :
    List String → Except String (List PaperItem)
  | [] => Except.ok []
  | q :: qs =>
    match search q with
    | Except.error e => Except.error e
    | Except.ok ps =>
      match runSearches search qs with
      | Except.error e => Except.error e
      | Except.ok rest => Except.ok (ps ++ rest)

/-- `literature_scout_node` (literature_scout.py lines 15-90).  The
retrieval collaborator is the `search` parameter; `Except.error` models
a raised exception. -/
def literature_scout_node (search : String → Except String (List PaperItem))
    (s : DiscState) : DiscState :=
  let sq := effectiveQueries s
  if sq = [] then
    { s with
      error := some "No search queries available — scope clarification likely failed.",
      current_step := "error" }
  else
    match runSearches search (sq.take 5) with
    | Except.error e =>
      { s with error := some ("Literature search failed: " ++ e),
               current_step := "error" }
    | Except.ok retrieved =>
      let papers := literature_scout_papers retrieved
      { s with
        papers := some papers,
        current_step := "papers_retrieved",
        messages := s.messages ++ [⟨"agent_note", "literature_scout",
          "Found " ++ toString papers.length ++ " relevant papers"⟩] }

/-- `result.get(k, default)` on the decoded provider reply. -/
def jGetD (j : Json) (k : String) (d : Json) : Json :=
  match j with
  | Json.jobj kvs => (pyLookup kvs k).getD d
  | _ => d

def jLen : Json → Nat
  | Json.jarr l => l.length
  | _ => 0

/-- `trend_synthesizer_node` (trend_synthesizer.py lines 51-112).  The
whole `try` body (provider call, extraction, `json.loads`) is folded
into the `llm` outcome: `Except.error` carries the message of whatever
exception the `except` block caught; `Except.ok` carries the decoded
reply.  The empty-papers fail-fast check precedes the `try` and is
modelled exactly. -/
def trend_synthesizer_node (llm : Except String Json) (s : DiscState) : DiscState :=
  let papers := s.papers.getD []
  if papers = [] then
    { s with error := some "No papers to analyze", current_step := "error" }
  else
    match llm with
    | Except.error e =>
      { s with error := some ("Trend synthesis failed: " ++ e),
               current_step := "error" }
    | Except.ok result =>
      let themes := jGetD result "themes" (Json.jarr [])
      { s with
        themes := some themes,
        trends := some (jGetD result "trends" (Json.jobj [])),
        current_step := "trends_identified",
        messages := s.messages ++ [⟨"agent_note", "trend_synthesizer",
          "Identified " ++ toString (jLen themes) ++ " research themes"⟩] }

/- ────────────────────────────────────────────────────────────────────
   Run rows, run events and the background tasks (tasks.py).

   A task is a pure function from the graph outcome to the run row it
   leaves committed and the list of RunEvent rows it inserted.  The
   clock is the `t` parameter.  `GraphOutcome.exn` models an exception
   escaping `graph.ainvoke` (or the result-formatting code in the same
   `try` block).
   ──────────────────────────────────────────────────────────────────── -/

inductive GraphOutcome (σ : Type) where
  | ok : σ → GraphOutcome σ
  | exn : String → GraphOutcome σ

/-- An `AgentRun` row, generic over the shape of its `result` column. -/
structure RunRow (ρ : Type) where
  status : String := "pending"
  error_message : Option String := none
  result : Option ρ := none
  started_at : Option Nat := none
  finished_at : Option Nat := none
deriving Repr

/-- A `RunEvent` row (run_event.py lines 19-47). -/
structure EventRow where
  id : String := ""
  run_id : String := ""
  event_type : String := ""
  payload : Option Json := none
  created_at : Nat := 0
deriving Repr

structure FormattedDirection where
  id : String
  title : String
  description : String
  past_approaches : String
  current_state : String
  gaps : String
  improvements : String
  feasibility_score : Int
  contribution_type : String
  minimum_experiments : List String
deriving DecidableEq, Repr

/-- `", ".join([g.get("description", "")[:100] for g in gaps[:2]]) if
gaps else "See detailed report"`. -/
def gapsSummary (gaps : List GapItem) : String :=
  if gaps = [] then "See detailed report"
  else String.intercalate ", "
    ((gaps.take 2).map (fun g => (g.description.getD "").take 100))

/-- One entry of `formatted_directions` (tasks.py lines 96-108); `idx`
is `len(formatted_directions)` at append time, i.e. the position. -/
def formatOneDirection (idx papersLen : Nat) (gapsStr : String)
    (d : DirectionItem) : FormattedDirection :=
  { id := d.id.getD (toString (idx + 1))
    title := d.title.getD "Untitled Direction"
    description := d.description.getD ""
    past_approaches := d.novelty_angle.getD "Analysis pending..."
    current_state := "Based on analysis of " ++ toString papersLen ++ " papers"
    gaps := gapsStr
    improvements :=
      match d.expected_outcomes with
      | some (x :: _) => x
      | _ => "See experiment plan"
    feasibility_score := d.feasibility_score.getD 7
    contribution_type := d.contribution_type.getD "method"
    minimum_experiments := d.minimum_experiments.getD [] }

/-- The `for d in directions[:5]` formatting loop (the caller passes the
already-truncated list). -/
def formatDirectionsFrom (papersLen : Nat) (gapsStr : String) :
    Nat → List DirectionItem → List FormattedDirection
  | _, [] => []
  | idx, d :: ds =>
    formatOneDirection idx papersLen gapsStr d ::
      formatDirectionsFrom papersLen gapsStr (idx + 1) ds

def jTruthy : Json → Bool
  | Json.null => false
  | Json.jbool b => b
  | Json.jnum n => n ≠ 0
  | Json.jstr s => s ≠ ""
  | Json.jarr l => !l.isEmpty
  | Json.jobj l => !l.isEmpty

/-- Python `v or d` on a JSON-valued field. -/
def pyOrJ (v : Option Json) (d : Json) : Json :=
  match v with
  | none => d
  | some j => if jTruthy j then j else d

/-- Read a string field out of a decoded JSON object with a default. -/
def jGetStrD (j : Json) (k : String) (d : String) : String :=
  match j with
  | Json.jobj kvs =>
    match pyLookup kvs k with
    | some (Json.jstr s) => s
    | _ => d
  | _ => d

/-- The `run.result` dict built on discovery success (tasks.py lines
111-119). -/
structure DiscoveryResult where
  message : String
  field_overview : String
  directions : List FormattedDirection
  papers_analyzed : Nat
  gaps_found : Nat
  themes : Json
  domain_boundaries : Option Json
deriving Repr

/-- `run_discovery_agent` (tasks.py lines 30-138): set the row to
`running`, run the graph, then commit the terminal row.  No RunEvent
row is inserted anywhere in the function, so the event list is built
along the control flow and is empty on every path.  (In the source a
`None` `domain_boundaries` would raise inside the same `try` and land
in the `except` path; the `field_overview` read treats it as the empty
dict here, which no claim touches.) -/
def run_discovery_agent (query : String) (run : RunRow DiscoveryResult)
    (outcome : GraphOutcome DiscState) (t : Nat) :
    RunRow DiscoveryResult × List EventRow :=
  let r1 := { run with status := "running", started_at := some t }
  match outcome with
  | GraphOutcome.exn e =>
    ({ r1 with status := "failed", error_message := some e,
               finished_at := some t }, [])
  | GraphOutcome.ok fs =>
    if errTruthy fs.error then
      ({ r1 with status := "failed", error_message := fs.error,
                 finished_at := some t }, [])
    else
      let directions := fs.directions.getD []
      let gaps := fs.gaps.getD []
      let papers := fs.papers.getD []
      ({ r1 with
          status := "completed",
          result := some
            { message := "Discovery analysis complete for '" ++ query ++ "'"
              field_overview := "Analyzed " ++ toString papers.length
                ++ " papers in "
                ++ jGetStrD (fs.domain_boundaries.getD (Json.jobj [])) "field"
                    "the field"
              directions :=
                formatDirectionsFrom papers.length (gapsSummary gaps) 0
                  (directions.take 5)
              papers_analyzed := papers.length
              gaps_found := gaps.length
              themes := pyOrJ fs.themes (Json.jarr [])
              domain_boundaries := fs.domain_boundaries },
          finished_at := some t }, [])

/-- The `run.result` dict built on deep-dive success (tasks.py lines
199-210); each field is stored as found in the final state (every key
is present in `DeepDiveState`, so the `.get(k, [])` defaults are never
taken). -/
structure DeepDiveResult where
  message : String
  direction : Json
  baseline_methods : Option Json
  datasets : Option Json
  metrics : Option Json
  hypotheses : Option Json
  ablations : Option Json
  training_protocol : Option Json
  evaluation_plan : Option Json
  compute_estimate : Option Json
deriving Repr

/-- `run_deep_dive_agent` (tasks.py lines 141-238).  The experiment-plan
Artifact row it also inserts on success is not modelled (no claim
concerns artifacts); like discovery it inserts no RunEvent row. -/
def run_deep_dive_agent (direction : Json) (run : RunRow DeepDiveResult)
    (outcome : GraphOutcome DDState) (t : Nat) :
    RunRow DeepDiveResult × List EventRow :=
  let r1 := { run with status := "running", started_at := some t }
  match outcome with
  | GraphOutcome.exn e =>
    ({ r1 with status := "failed", error_message := some e,
               finished_at := some t }, [])
  | GraphOutcome.ok fs =>
    if errTruthy fs.error then
      ({ r1 with status := "failed", error_message := fs.error,
                 finished_at := some t }, [])
    else
      ({ r1 with
          status := "completed",
          result := some
            { message := "Deep dive complete for '"
                ++ jGetStrD direction "title" "Unknown" ++ "'"
              direction := direction
              baseline_methods := fs.baseline_methods
              datasets := fs.datasets
              metrics := fs.metrics
              hypotheses := fs.hypotheses
              ablations := fs.ablations
              training_protocol := fs.training_protocol
              evaluation_plan := fs.evaluation_plan
              compute_estimate := fs.compute_estimate },
          finished_at := some t }, [])

structure PaperSections where
  abstract : Option String
  introduction : Option String
  related_work : Option String
  method : Option String
  experiments : Option String
  results : Option String
  discussion : Option String
  conclusion : Option String
deriving DecidableEq, Repr

/-- The `run.result` dict built on paper success (tasks.py lines
420-433); `title` is stored as found in the final state (the key is
always present, so the `"Research Paper"` default is never taken). -/
structure PaperResult where
  message : String
  title : Option String
  sections : PaperSections
deriving DecidableEq, Repr

/-- `run_paper_agent` (tasks.py lines 298-451).  The context-fetch block
only builds the initial state and the Artifact insert is not modelled
(no claim concerns either).  Crucially, its `except` block (lines
448-449) only logs: on an exception escaping `graph.ainvoke` no further
row update is committed, so the row stays as last committed —
`running`. -/
def run_paper_agent (run : RunRow PaperResult)
    (outcome : GraphOutcome PapState) (t : Nat) :
    RunRow PaperResult × List EventRow :=
  let r1 := { run with status := "running", started_at := some t }
  match outcome with
  | GraphOutcome.exn _ => (r1, [])
  | GraphOutcome.ok fs =>
    if errTruthy fs.error then
      ({ r1 with status := "failed", error_message := fs.error,
                 finished_at := some t }, [])
    else
      ({ r1 with
          status := "completed",
          result := some
            { message := "Paper draft generated"
              title := fs.title
              sections :=
                { abstract := fs.abstract
                  introduction := fs.introduction
                  related_work := fs.related_work
                  method := fs.method
                  experiments := fs.experiments
                  results := fs.results
                  discussion := fs.discussion
                  conclusion := fs.conclusion } },
          finished_at := some t }, [])

/- ────────────────────────────────────────────────────────────────────
   Startup stale-run recovery (main.py lines 35-66).
   ──────────────────────────────────────────────────────────────────── -/

def stale_run_message : String :=
  "Server was restarted while this run was in progress. Please start a new run."

/-- Effect of the bulk
`UPDATE agent_runs SET ... WHERE status IN ('running', 'pending')`
on one row. -/
def recover_stale_run {ρ : Type} (t : Nat) (r : RunRow ρ) : RunRow ρ :=
  if r.status = "running" ∨ r.status = "pending" then
    { r with status := "failed", error_message := some stale_run_message,
             finished_at := some t }
  else r

/-- The whole startup cleanup over the runs table. -/
def lifespan_stale_cleanup {ρ : Type} (t : Nat) (runs : List (RunRow ρ)) :
    List (RunRow ρ) :=
  runs.map (recover_stale_run t)

/- ────────────────────────────────────────────────────────────────────
   Event-stream read path (runs.py lines 209-261).
   ──────────────────────────────────────────────────────────────────── -/

/-- The run row as the API reads it (`result` is a JSON column). -/
structure ApiRun where
  id : String := ""
  status : String := "pending"
  result : Option Json := none
deriving Repr

/-- A server-sent event: `format_sse_event(event_type, data)`. -/
structure SSEvent where
  event : String
  data : Json
deriving Repr

def format_sse_event (ty : String) (data : Json) : SSEvent := ⟨ty, data⟩

/-- Serialization of one persisted RunEvent row (the timestamp renders
as its string form, standing in for `isoformat()`). -/
def eventToSSE (e : EventRow) : SSEvent :=
  format_sse_event e.event_type (Json.jobj
    [("id", Json.jstr e.id), ("payload", e.payload.getD Json.null),
     ("created_at", Json.jstr (toString e.created_at))])

def createdBefore (a b : EventRow) : Bool := decide (a.created_at ≤ b.created_at)

/-- `ORDER BY created_at` over the selected rows. -/
def sortEventsAsc (l : List EventRow) : List EventRow :=
  stableSortBy createdBefore l

/-- The synthesized completion event (runs.py lines 255-259). -/
def run_complete_event (run : ApiRun) : SSEvent :=
  format_sse_event "run_complete" (Json.jobj
    [("status", Json.jstr run.status), ("result", run.result.getD Json.null)])

/-- `run.status in ["completed", "failed"]`. -/
def isTerminal (run : ApiRun) : Bool :=
  run.status = "completed" || run.status = "failed"

/-- `stream_run_events`' generator (runs.py lines 236-259): replay the
run's persisted events ordered by creation time, then — exactly when the
run is terminal — one synthesized `run_complete` event. -/
def stream_run_events (run : ApiRun) (table : List EventRow) : List SSEvent :=
  (sortEventsAsc (table.filter (fun e => e.run_id = run.id))).map eventToSSE
    ++ (if isTerminal run then [run_complete_event run] else [])

/- ────────────────────────────────────────────────────────────────────
   Concrete scenario states used by witnesses and counterexamples.
   ──────────────────────────────────────────────────────────────────── -/

/-- A discovery state right after scope clarification. -/
def c8_state0 : DiscState :=
  { user_query := "graph neural networks for drug discovery",
    search_queries := some ["q1"],
    current_step := "scope_clarified" }

/-- The same state after a literature-scout pass whose retrieval
collaborator returned zero items. -/
def c8_state1 : DiscState :=
  literature_scout_node (fun _ => Except.ok []) c8_state0

/-- A successful discovery final state carrying six directions with all
optional fields missing. -/
def c10_state : DiscState :=
  { directions := some (List.replicate 6 {}),
    gaps := some [],
    papers := some [],
    current_step := "directions_generated" }

/-! ### Theorems -/

theorem pyLookup_overwrite_self {α : Type} (d : List (String × α)) (k : String) (v : α)
    (h : hasKey d k = true) : pyLookup (overwrite d k v) k = some v := by
  induction d with
  | nil => simp [hasKey] at h
  | cons p d ih =>
    by_cases hp : p.1 = k
    · simp [overwrite, pyLookup, hp]
    · have h' : hasKey d k = true := by
        simp only [hasKey, Bool.or_eq_true, decide_eq_true_eq] at h
        exact h.resolve_left hp
      simpa [overwrite, pyLookup, hp] using ih h'

theorem pyLookup_overwrite_ne {α : Type} (d : List (String × α)) (k k' : String) (v : α)
    (hne : k ≠ k') : pyLookup (overwrite d k' v) k = pyLookup d k := by
  induction d with
  | nil => rfl
  | cons p d ih =>
    show pyLookup ((if p.1 = k' then (k', v) else p) :: overwrite d k' v) k
        = pyLookup (p :: d) k
    by_cases hp : p.1 = k'
    · rw [if_pos hp]
      show (if k' = k then some v else pyLookup (overwrite d k' v) k)
          = (if p.1 = k then some p.2 else pyLookup d k)
      rw [if_neg (fun he => hne he.symm), if_neg (fun he => hne (he.symm.trans hp)), ih]
    · rw [if_neg hp]
      show (if p.1 = k then some p.2 else pyLookup (overwrite d k' v) k)
          = (if p.1 = k then some p.2 else pyLookup d k)
      rw [ih]

theorem pyLookup_append_right {α : Type} (d l : List (String × α)) (k : String)
    (h : pyLookup d k = none) : pyLookup (d ++ l) k = pyLookup l k := by
  induction d with
  | nil => simp
  | cons p d ih =>
    by_cases hp : p.1 = k
    · simp [pyLookup, hp] at h
    · simp only [pyLookup, hp, if_neg hp] at h ⊢
      simpa [List.cons_append, pyLookup, hp] using ih h

theorem hasKey_of_lookup_isSome {α : Type} (d : List (String × α)) (k : String)
    (h : (pyLookup d k).isSome) : hasKey d k = true := by
  induction d with
  | nil => simp [pyLookup] at h
  | cons p d ih =>
    by_cases hp : p.1 = k
    · simp [hasKey, hp]
    · simp only [pyLookup, if_neg hp] at h
      simp [hasKey, hp, ih h]

theorem lookup_none_of_not_hasKey {α : Type} (d : List (String × α)) (k : String)
    (h : hasKey d k = false) : pyLookup d k = none := by
  induction d with
  | nil => rfl
  | cons p d ih =>
    simp only [hasKey, Bool.or_eq_false_iff, decide_eq_false_iff_not] at h
    simp [pyLookup, h.1, ih h.2]

theorem pyLookup_append_single_ne {α : Type} (d : List (String × α)) (k k' : String)
    (v : α) (hne : k ≠ k') : pyLookup (d ++ [(k', v)]) k = pyLookup d k := by
  induction d with
  | nil =>
    show (if k' = k then some v else none) = none
    rw [if_neg (fun he => hne he.symm)]
  | cons p d ih =>
    show (if p.1 = k then some p.2 else pyLookup (d ++ [(k', v)]) k)
        = (if p.1 = k then some p.2 else pyLookup d k)
    rw [ih]

theorem pyLookup_dictSet_self {α : Type} (d : List (String × α)) (k : String) (v : α) :
    pyLookup (dictSet d k v) k = some v := by
  unfold dictSet
  by_cases h : hasKey d k
  · rw [if_pos h]; exact pyLookup_overwrite_self d k v h
  · rw [if_neg h]
    have hn := lookup_none_of_not_hasKey d k (by simpa using h)
    rw [pyLookup_append_right d _ k hn]
    show (if k = k then some v else none) = some v
    rw [if_pos rfl]

theorem pyLookup_dictSet_ne {α : Type} (d : List (String × α)) (k k' : String) (v : α)
    (hne : k ≠ k') : pyLookup (dictSet d k' v) k = pyLookup d k := by
  unfold dictSet
  by_cases h : hasKey d k'
  · rw [if_pos h]; exact pyLookup_overwrite_ne d k k' v hne
  · rw [if_neg h]; exact pyLookup_append_single_ne d k k' v hne

theorem pyLookup_dictSet_isSome {α : Type} (d : List (String × α)) (k k' : String) (v : α)
    (h : (pyLookup d k).isSome) : (pyLookup (dictSet d k' v) k).isSome := by
  by_cases he : k = k'
  · subst he; simp [pyLookup_dictSet_self]
  · rw [pyLookup_dictSet_ne d k k' v he]; exact h

/-- Keys the update does not mention keep their prior value. -/
theorem pyLookup_dictMerge_not_mem {α : Type} (d u : List (String × α)) (k : String)
    (h : hasKey u k = false) :
    pyLookup (dictMerge d u) k = pyLookup d k := by
  induction u generalizing d with
  | nil => rfl
  | cons p u ih =>
    simp only [hasKey, Bool.or_eq_false_iff, decide_eq_false_iff_not] at h
    show pyLookup (dictMerge (dictSet d p.1 p.2) u) k = pyLookup d k
    rw [ih (dictSet d p.1 p.2) h.2]
    exact pyLookup_dictSet_ne d k p.1 p.2 (fun he => h.1 he.symm)

/-- Every key present in the input dict is present in the merged dict. -/
theorem pyLookup_dictMerge_isSome {α : Type} (d u : List (String × α)) (k : String)
    (h : (pyLookup d k).isSome) : (pyLookup (dictMerge d u) k).isSome := by
  induction u generalizing d with
  | nil => exact h
  | cons p u ih =>
    exact ih (dictSet d p.1 p.2) (pyLookup_dictSet_isSome d k p.1 p.2 h)


theorem mem_insertBy {α : Type} (r : α → α → Bool) (x a : α) (l : List α) :
    a ∈ insertBy r x l ↔ a = x ∨ a ∈ l := by
  induction l with
  | nil => simp [insertBy]
  | cons y ys ih =>
    by_cases h : r x y
    · simp only [insertBy, if_pos h, List.mem_cons]
    · simp only [insertBy, if_neg h, List.mem_cons, ih]
      tauto

theorem insertBy_perm {α : Type} (r : α → α → Bool) (x : α) (l : List α) :
    (insertBy r x l).Perm (x :: l) := by
  induction l with
  | nil => exact List.Perm.refl _
  | cons y ys ih =>
    by_cases h : r x y
    · simp only [insertBy, if_pos h]
      exact List.Perm.refl _
    · simp only [insertBy, if_neg h]
      exact (List.Perm.cons y ih).trans (List.Perm.swap x y ys)

theorem stableSortBy_perm {α : Type} (r : α → α → Bool) (l : List α) :
    (stableSortBy r l).Perm l := by
  induction l with
  | nil => exact List.Perm.refl _
  | cons x xs ih =>
    exact (insertBy_perm r x _).trans (List.Perm.cons x ih)

theorem insertBy_pairwise {α : Type} (r : α → α → Bool)
    (htot : ∀ a b, r a b = true ∨ r b a = true)
    (htrans : ∀ a b c, r a b = true → r b c = true → r a c = true)
    (x : α) (l : List α) (hl : List.Pairwise (fun a b => r a b = true) l) :
    List.Pairwise (fun a b => r a b = true) (insertBy r x l) := by
  induction l with
  | nil => simp [insertBy]
  | cons y ys ih =>
    rw [List.pairwise_cons] at hl
    by_cases h : r x y
    · simp only [insertBy, if_pos h]
      rw [List.pairwise_cons]
      refine ⟨?_, List.pairwise_cons.mpr hl⟩
      intro z hz
      rcases List.mem_cons.mp hz with hz | hz
      · exact hz ▸ h
      · exact htrans x y z h (hl.1 z hz)
    · simp only [insertBy, if_neg h]
      rw [List.pairwise_cons]
      refine ⟨?_, ih hl.2⟩
      intro z hz
      rcases (mem_insertBy r x z ys).mp hz with hz | hz
      · subst hz
        exact (htot z y).resolve_left (by simpa using h)
      · exact hl.1 z hz

theorem stableSortBy_pairwise {α : Type} (r : α → α → Bool)
    (htot : ∀ a b, r a b = true ∨ r b a = true)
    (htrans : ∀ a b c, r a b = true → r b c = true → r a c = true)
    (l : List α) :
    List.Pairwise (fun a b => r a b = true) (stableSortBy r l) := by
  induction l with
  | nil => simp [stableSortBy]
  | cons x xs ih => exact insertBy_pairwise r htot htrans x _ ih

theorem runSeq_take_succ_cons {σ : Type} (f : σ → σ) (fs : List (σ → σ))
    (n : Nat) (s : σ) :
    runSeq ((f :: fs).take (n + 1)) s = runSeq (fs.take n) (f s) := rfl

/-- The executor's short-circuit discipline: if every stage before stage
`k` passes the router and stage `k`'s output fails it, the graph stops
right there — the run invokes exactly `k + 1` stages and returns stage
`k`'s output unchanged. -/
theorem runGraph_short_circuit {σ : Type} [AgentStateLike σ]
    (fs : List (σ → σ)) (k : Nat) (s0 : σ) (hk : k < fs.length)
    (hpre : ∀ j, j < k → route_or_error (runSeq (fs.take (j + 1)) s0) = false)
    (hfail : route_or_error (runSeq (fs.take (k + 1)) s0) = true) :
    runGraph fs s0 = (runSeq (fs.take (k + 1)) s0, k + 1) := by
  induction fs generalizing k s0 with
  | nil => exact absurd hk (Nat.not_lt_zero k)
  | cons f fs ih =>
    cases k with
    | zero =>
      have h1 : route_or_error (f s0) = true := hfail
      show runGraph (f :: fs) s0 = (f s0, 1)
      simp [runGraph, h1]
    | succ k =>
      have h0 : route_or_error (f s0) = false := hpre 0 (Nat.succ_pos k)
      have hpre' : ∀ j, j < k →
          route_or_error (runSeq (fs.take (j + 1)) (f s0)) = false :=
        fun j hj => hpre (j + 1) (Nat.succ_lt_succ hj)
      have hfail' : route_or_error (runSeq (fs.take (k + 1)) (f s0)) = true := hfail
      have hk' : k < fs.length := Nat.lt_of_succ_lt_succ hk
      have ihh := ih k (f s0) hk' hpre' hfail'
      have hstep : runGraph (f :: fs) s0
          = ((runGraph fs (f s0)).1, (runGraph fs (f s0)).2 + 1) := by
        simp [runGraph, h0]
      rw [hstep, ihh, runSeq_take_succ_cons]

/-- C1: For every pipeline (discovery, deep-dive, paper) and every stage
`k`, if the state returned by stage `k` has `error` set (non-empty) or
`current_step = "error"` — i.e. `route_or_error` fires — then no stage
after `k` is invoked (exactly `k + 1` invocations) and stage `k`'s state
is preserved in full as the pipeline's final state. -/
theorem C1_short_circuit_routing :
    (∀ (n1 n2 n3 n4 n5 : DiscState → DiscState) (s0 : DiscState) (k : Nat),
      k < (create_discovery_graph n1 n2 n3 n4 n5).length →
      (∀ j, j < k → route_or_error
        (runSeq ((create_discovery_graph n1 n2 n3 n4 n5).take (j + 1)) s0) = false) →
      route_or_error
        (runSeq ((create_discovery_graph n1 n2 n3 n4 n5).take (k + 1)) s0) = true →
      runGraph (create_discovery_graph n1 n2 n3 n4 n5) s0
        = (runSeq ((create_discovery_graph n1 n2 n3 n4 n5).take (k + 1)) s0, k + 1))
  ∧ (∀ (m1 m2 : DDState → DDState) (s0 : DDState) (k : Nat),
      k < (create_deep_dive_graph m1 m2).length →
      (∀ j, j < k → route_or_error
        (runSeq ((create_deep_dive_graph m1 m2).take (j + 1)) s0) = false) →
      route_or_error (runSeq ((create_deep_dive_graph m1 m2).take (k + 1)) s0) = true →
      runGraph (create_deep_dive_graph m1 m2) s0
        = (runSeq ((create_deep_dive_graph m1 m2).take (k + 1)) s0, k + 1))
  ∧ (∀ (p1 p2 : PapState → PapState) (s0 : PapState) (k : Nat),
      k < (create_paper_graph p1 p2).length →
      (∀ j, j < k → route_or_error
        (runSeq ((create_paper_graph p1 p2).take (j + 1)) s0) = false) →
      route_or_error (runSeq ((create_paper_graph p1 p2).take (k + 1)) s0) = true →
      runGraph (create_paper_graph p1 p2) s0
        = (runSeq ((create_paper_graph p1 p2).take (k + 1)) s0, k + 1)) := by
  refine ⟨?_, ?_, ?_⟩
  · intro n1 n2 n3 n4 n5 s0 k hk hpre hfail
    exact runGraph_short_circuit _ k s0 hk hpre hfail
  · intro m1 m2 s0 k hk hpre hfail
    exact runGraph_short_circuit _ k s0 hk hpre hfail
  · intro p1 p2 s0 k hk hpre hfail
    exact runGraph_short_circuit _ k s0 hk hpre hfail

/-- C1 witness: in a discovery pipeline whose second stage fails, the
run executes exactly two stages and returns the failing state. -/
theorem C1_short_circuit_routing_witness :
    runGraph (create_discovery_graph id
        (fun s => { s with error := some "Literature search failed: boom",
                           current_step := "error" })
        id id id) ({} : DiscState)
      = ({ ({} : DiscState) with error := some "Literature search failed: boom",
                                 current_step := "error" }, 2) := by
  have h := C1_short_circuit_routing.1 id
      (fun s => { s with error := some "Literature search failed: boom",
                         current_step := "error" })
      id id id ({} : DiscState) 1 (by decide)
      (by
        intro j hj
        interval_cases j
        rfl)
      rfl
  exact h

theorem filter_filter_mem_cons (ps : List PaperItem) (k : String) (seen : List String) :
    (ps.filter (fun p => pidOf p ∉ seen)).filter (fun q => pidOf q ≠ k)
      = ps.filter (fun p => pidOf p ∉ k :: seen) := by
  rw [List.filter_filter]
  apply List.filter_congr
  intro a _
  by_cases h1 : pidOf a ∈ seen <;> by_cases h2 : pidOf a = k <;>
    simp [h1, h2, List.mem_cons]

/-- The `seen_ids` loop equals declarative first-occurrence
deduplication of the items whose key is not already seen. -/
theorem collectPapers_eq_dedup :
    ∀ (n : Nat) (xs : List PaperItem), xs.length ≤ n → ∀ seen : List String,
      collectPapers xs seen = dedupKeepFirst (xs.filter (fun p => pidOf p ∉ seen)) := by
  intro n
  induction n with
  | zero =>
    intro xs hx seen
    have : xs = [] := List.eq_nil_of_length_eq_zero (Nat.le_zero.mp hx)
    subst this
    simp [collectPapers, dedupKeepFirst]
  | succ n ih =>
    intro xs hx seen
    cases xs with
    | nil => simp [collectPapers, dedupKeepFirst]
    | cons p ps =>
      have hps : ps.length ≤ n := Nat.le_of_succ_le_succ hx
      by_cases hempty : pidOf p = ""
      · have hcond : ¬ (pidOf p ≠ "" ∧ pidOf p ∉ seen) := fun hc => hc.1 hempty
        rw [show collectPapers (p :: ps) seen = collectPapers ps seen from by
          simp [collectPapers, hcond]]
        by_cases hmem : pidOf p ∈ seen
        · rw [show (p :: ps).filter (fun q => pidOf q ∉ seen)
              = ps.filter (fun q => pidOf q ∉ seen) from by simp [hmem]]
          exact ih ps hps seen
        · rw [show (p :: ps).filter (fun q => pidOf q ∉ seen)
              = p :: ps.filter (fun q => pidOf q ∉ seen) from by simp [hmem]]
          rw [show dedupKeepFirst (p :: ps.filter (fun q => pidOf q ∉ seen))
              = dedupKeepFirst (ps.filter (fun q => pidOf q ∉ seen)) from by
            rw [dedupKeepFirst]; simp [hempty]]
          exact ih ps hps seen
      · by_cases hmem : pidOf p ∈ seen
        · have hcond : ¬ (pidOf p ≠ "" ∧ pidOf p ∉ seen) := fun hc => hc.2 hmem
          rw [show collectPapers (p :: ps) seen = collectPapers ps seen from by
            simp [collectPapers, hcond]]
          rw [show (p :: ps).filter (fun q => pidOf q ∉ seen)
              = ps.filter (fun q => pidOf q ∉ seen) from by simp [hmem]]
          exact ih ps hps seen
        · have hcond : pidOf p ≠ "" ∧ pidOf p ∉ seen := ⟨hempty, hmem⟩
          rw [show collectPapers (p :: ps) seen
              = p :: collectPapers ps (pidOf p :: seen) from by
            simp [collectPapers, hcond]]
          rw [show (p :: ps).filter (fun q => pidOf q ∉ seen)
              = p :: ps.filter (fun q => pidOf q ∉ seen) from by simp [hmem]]
          rw [show dedupKeepFirst (p :: ps.filter (fun q => pidOf q ∉ seen))
              = p :: dedupKeepFirst ((ps.filter (fun q => pidOf q ∉ seen)).filter
                  (fun q => pidOf q ≠ pidOf p)) from by
            rw [dedupKeepFirst]; simp [hempty]]
          rw [filter_filter_mem_cons]
          rw [ih ps hps (pidOf p :: seen)]

/-- C5 counterexample: a retrieved item whose `id` is absent and whose
`title` is the empty string.  The claim's algorithm keeps the first
occurrence of its (empty) key, but the code's `if pid` guard discards
the item outright, so the two lists differ. -/
theorem C5_paper_list_counterexample :
    literature_scout_papers [{ id := none, title := some "" }]
      ≠ spec_paper_list [{ id := none, title := some "" }] := by
  have h2 : spec_paper_list [{ id := none, title := some "" }]
      = [{ id := none, title := some "" }] := by
    simp [spec_paper_list, specDedupKeepFirst, stableSortBy, insertBy]
  rw [h2]
  decide

/-- C5 amended: the list is built by deduplicating on the id (falling
back to the title when the id is absent *or empty*), *discarding items
whose id and title are both absent or empty*, keeping the first
occurrence of each remaining key, then stable-sorting in descending
order of citation count (missing or `None` treated as `0`), then
truncating to at most 50 items; citation counts `[3, None, 10]` come out
ordered `[10, 3, None]`. -/
theorem C5_paper_list_amended :
    (∀ retrieved : List PaperItem,
      literature_scout_papers retrieved
        = (stableSortBy paperDescBefore (dedupKeepFirst retrieved)).take 50)
  ∧ literature_scout_papers
      [{ id := some "p1", citation_count := some 3 },
       { id := some "p2", citation_count := none },
       { id := some "p3", citation_count := some 10 }]
      = [{ id := some "p3", citation_count := some 10 },
         { id := some "p1", citation_count := some 3 },
         { id := some "p2", citation_count := none }] := by
  constructor
  · intro retrieved
    unfold literature_scout_papers
    rw [collectPapers_eq_dedup retrieved.length retrieved (Nat.le_refl _) [],
        List.filter_eq_self.mpr (by intro a _; simp)]
  · decide

/-- C6: structured-output extraction takes the interior of the first
```json fence when one is present (even when a plain fence comes
earlier), else the interior of the first plain fence, else the raw text;
the result is stripped and decoded as JSON — in particular the claim's
example decodes to `\x7b"a": 1\x7d`. -/
theorem C6_structured_output_extraction :
    parse_structured "Here you go:\n```json\n\x7b\"a\":1\x7d\n```\nThanks"
        = some (Json.jobj [("a", Json.jnum 1)])
  ∧ parse_structured "pre\n```\n[1, 2]\n```\npost"
        = some (Json.jarr [Json.jnum 1, Json.jnum 2])
  ∧ parse_structured "  \x7b\"a\": 1\x7d  " = some (Json.jobj [("a", Json.jnum 1)])
  ∧ parse_structured "```\nnoise\n```\n```json\n2\n```" = some (Json.jnum 2)
  ∧ parse_structured "not json" = none :=
  ⟨rfl, rfl, rfl, rfl, rfl⟩

/-- C7: a stage's `\x7b**state, ...\x7d` return is a non-destructive
copy-then-merge: keys the update does not write keep their prior value,
every key of the input state is still present, merging
`\x7ba: v1\x7d` then `\x7bb: v2\x7d` leaves both present with their
values, and merging the empty update changes nothing. -/
theorem C7_state_merge_non_destructive :
    (∀ (d u : List (String × Json)) (k : String),
        hasKey u k = false → pyLookup (dictMerge d u) k = pyLookup d k)
  ∧ (∀ (d u : List (String × Json)) (k : String),
        (pyLookup d k).isSome → (pyLookup (dictMerge d u) k).isSome)
  ∧ (∀ (d : List (String × Json)) (v1 v2 : Json),
        pyLookup (dictMerge (dictMerge d [("a", v1)]) [("b", v2)]) "a" = some v1
      ∧ pyLookup (dictMerge (dictMerge d [("a", v1)]) [("b", v2)]) "b" = some v2)
  ∧ (∀ d : List (String × Json), dictMerge d [] = d) := by
  refine ⟨pyLookup_dictMerge_not_mem, pyLookup_dictMerge_isSome, ?_, fun d => rfl⟩
  intro d v1 v2
  constructor
  · show pyLookup (dictSet (dictSet d "a" v1) "b" v2) "a" = some v1
    rw [pyLookup_dictSet_ne _ _ _ _ (by decide)]
    exact pyLookup_dictSet_self d "a" v1
  · exact pyLookup_dictSet_self (dictSet d "a" v1) "b" v2

/-- C7 witness at a concrete state dict and update. -/
theorem C7_state_merge_non_destructive_witness :
    pyLookup (dictMerge [("user_query", Json.jstr "gnn")]
        [("papers", Json.jarr [])]) "user_query" = some (Json.jstr "gnn")
  ∧ (pyLookup (dictMerge [("user_query", Json.jstr "gnn")]
        [("papers", Json.jarr [])]) "papers").isSome :=
  ⟨C7_state_merge_non_destructive.1 [("user_query", Json.jstr "gnn")]
      [("papers", Json.jarr [])] "user_query" (by decide),
   by simp [dictMerge, dictSet, hasKey, pyLookup, overwrite]⟩

theorem runSearches_const_nil (qs : List String) :
    runSearches (fun _ => Except.ok ([] : List PaperItem)) qs = Except.ok [] := by
  induction qs with
  | nil => rfl
  | cons q qs ih => simp [runSearches, ih]

/-- C8 counterexample: after a retrieval pass that returned zero items
(the placeholder retrieval collaborator always does), the literature
scout completes normally with `papers = []`, but the very next stage,
`trend_synthesizer`, sets `error = "No papers to analyze"` and routes to
the error step on that account — so "no stage sets `error` ... on that
account" is false. -/
theorem C8_empty_retrieval_counterexample :
    c8_state1.error = none
  ∧ c8_state1.papers = some []
  ∧ c8_state1.current_step = "papers_retrieved"
  ∧ (trend_synthesizer_node (Except.ok (Json.jobj [])) c8_state1).error
      = some "No papers to analyze"
  ∧ (trend_synthesizer_node (Except.ok (Json.jobj [])) c8_state1).current_step
      = "error" :=
  ⟨rfl, rfl, rfl, rfl, rfl⟩

/-- C8 amended: the retrieving stage itself treats an empty retrieval
result as valid — with any queries available it completes with
`papers = []`, `current_step = "papers_retrieved"` and `error`
untouched — but the downstream `trend_synthesizer` stage fail-fasts on
the resulting empty `papers` input, setting
`error = "No papers to analyze"` and `current_step = "error"`. -/
theorem C8_empty_retrieval_amended :
    (∀ s : DiscState, effectiveQueries s ≠ [] →
        (literature_scout_node (fun _ => Except.ok []) s).error = s.error
      ∧ (literature_scout_node (fun _ => Except.ok []) s).current_step
          = "papers_retrieved"
      ∧ (literature_scout_node (fun _ => Except.ok []) s).papers = some [])
  ∧ (∀ (llm : Except String Json) (s : DiscState), s.papers.getD [] = [] →
        (trend_synthesizer_node llm s).error = some "No papers to analyze"
      ∧ (trend_synthesizer_node llm s).current_step = "error") := by
  constructor
  · intro s hq
    simp only [literature_scout_node, if_neg hq, runSearches_const_nil]
    refine ⟨?_, ?_, ?_⟩ <;> trivial
  · intro llm s hp
    simp only [trend_synthesizer_node, hp]
    refine ⟨?_, ?_⟩ <;> trivial

/-- C8 witness: the amended statement at the concrete scenario states. -/
theorem C8_empty_retrieval_amended_witness :
    ((literature_scout_node (fun _ => Except.ok []) c8_state0).error
        = c8_state0.error
      ∧ (literature_scout_node (fun _ => Except.ok []) c8_state0).current_step
          = "papers_retrieved"
      ∧ (literature_scout_node (fun _ => Except.ok []) c8_state0).papers = some [])
  ∧ ((trend_synthesizer_node (Except.ok (Json.jobj [])) c8_state1).error
        = some "No papers to analyze"
      ∧ (trend_synthesizer_node (Except.ok (Json.jobj [])) c8_state1).current_step
        = "error") :=
  ⟨C8_empty_retrieval_amended.1 c8_state0 (by decide),
   C8_empty_retrieval_amended.2 (Except.ok (Json.jobj [])) c8_state1 rfl⟩

/-- C2: an exception escaping the graph makes `run_discovery_agent` and
`run_deep_dive_agent` commit `failed` with the message — but
`run_paper_agent`'s except block only logs, so its run stays `running`
with no error message: the claim fails for the paper pipeline. -/
theorem C2_background_exception_handling :
    ((run_discovery_agent "q" {} (GraphOutcome.exn "boom") 0).1.status = "failed"
      ∧ (run_discovery_agent "q" {} (GraphOutcome.exn "boom") 0).1.error_message
          = some "boom")
  ∧ ((run_deep_dive_agent Json.null {} (GraphOutcome.exn "boom") 0).1.status
        = "failed"
      ∧ (run_deep_dive_agent Json.null {} (GraphOutcome.exn "boom") 0).1.error_message
          = some "boom")
  ∧ ((run_paper_agent {} (GraphOutcome.exn "boom") 0).1.status = "running"
      ∧ (run_paper_agent {} (GraphOutcome.exn "boom") 0).1.error_message = none) :=
  ⟨⟨rfl, rfl⟩, ⟨rfl, rfl⟩, ⟨rfl, rfl⟩⟩

/-- C3: no background task ever appends a RunEvent row — on every path
of all three runners the inserted-event list is empty, even though (last
conjunct) the run does go through its status transitions (here ending
`completed`), each of which the claim says should be persisted as an
event. -/
theorem C3_no_run_events_emitted :
    (∀ (query : String) (run : RunRow DiscoveryResult)
        (outcome : GraphOutcome DiscState) (t : Nat),
        (run_discovery_agent query run outcome t).2 = [])
  ∧ (∀ (direction : Json) (run : RunRow DeepDiveResult)
        (outcome : GraphOutcome DDState) (t : Nat),
        (run_deep_dive_agent direction run outcome t).2 = [])
  ∧ (∀ (run : RunRow PaperResult) (outcome : GraphOutcome PapState) (t : Nat),
        (run_paper_agent run outcome t).2 = [])
  ∧ (run_discovery_agent "q" {} (GraphOutcome.ok {}) 0).1.status = "completed" := by
  refine ⟨?_, ?_, ?_, rfl⟩
  · intro query run outcome t
    cases outcome with
    | exn e => rfl
    | ok fs =>
      unfold run_discovery_agent
      by_cases h : errTruthy fs.error <;> simp [h]
  · intro direction run outcome t
    cases outcome with
    | exn e => rfl
    | ok fs =>
      unfold run_deep_dive_agent
      by_cases h : errTruthy fs.error <;> simp [h]
  · intro run outcome t
    cases outcome with
    | exn e => rfl
    | ok fs =>
      unfold run_paper_agent
      by_cases h : errTruthy fs.error <;> simp [h]

/-- C4: at startup every run found in `running` or `pending` is moved to
`failed` with the (non-empty) restart message and a `finished_at`
timestamp, while `completed` and `failed` runs are left unchanged; the
cleanup is exactly this per-row recovery mapped over the table. -/
theorem C4_startup_recovery {ρ : Type} (t : Nat) (runs : List (RunRow ρ))
    (r : RunRow ρ) :
    (lifespan_stale_cleanup t runs = runs.map (recover_stale_run t))
  ∧ ((r.status = "running" ∨ r.status = "pending") →
        (recover_stale_run t r).status = "failed"
      ∧ (recover_stale_run t r).error_message = some stale_run_message
      ∧ stale_run_message ≠ ""
      ∧ (recover_stale_run t r).finished_at = some t)
  ∧ ((r.status = "completed" ∨ r.status = "failed") →
        recover_stale_run t r = r) := by
  refine ⟨rfl, ?_, ?_⟩
  · intro h
    unfold recover_stale_run
    rw [if_pos h]
    exact ⟨rfl, rfl, by decide, rfl⟩
  · intro h
    rcases h with h | h <;> simp [recover_stale_run, h]

/-- C4 witness: a `running` run recovered at time 7 and a `completed`
run left unchanged. -/
theorem C4_startup_recovery_witness :
    ((recover_stale_run 7 ({ status := "running" } : RunRow Json)).status = "failed"
      ∧ (recover_stale_run 7 ({ status := "running" } : RunRow Json)).error_message
          = some stale_run_message
      ∧ stale_run_message ≠ ""
      ∧ (recover_stale_run 7 ({ status := "running" } : RunRow Json)).finished_at
          = some 7)
  ∧ recover_stale_run 7 ({ status := "completed" } : RunRow Json)
      = { status := "completed" } :=
  ⟨(C4_startup_recovery 7 [] { status := "running" }).2.1 (Or.inl rfl),
   (C4_startup_recovery 7 [] { status := "completed" }).2.2 (Or.inl rfl)⟩

/-- C9: the read path replays exactly the run's persisted events (a
permutation of the selected rows) in ascending creation-time order, and
appends exactly one synthesized `run_complete` event after all of them
if and only if the run's status is terminal. -/
theorem C9_event_replay (run : ApiRun) (table : List EventRow) :
    (sortEventsAsc (table.filter (fun e => e.run_id = run.id))).Perm
        (table.filter (fun e => e.run_id = run.id))
  ∧ List.Pairwise (fun a b => a.created_at ≤ b.created_at)
        (sortEventsAsc (table.filter (fun e => e.run_id = run.id)))
  ∧ (isTerminal run = true →
      stream_run_events run table
        = (sortEventsAsc (table.filter (fun e => e.run_id = run.id))).map eventToSSE
            ++ [run_complete_event run])
  ∧ (isTerminal run = false →
      stream_run_events run table
        = (sortEventsAsc (table.filter (fun e => e.run_id = run.id))).map eventToSSE) := by
  have htot : ∀ a b : EventRow,
      createdBefore a b = true ∨ createdBefore b a = true := by
    intro a b
    rcases Nat.le_total a.created_at b.created_at with h | h
    · left; simpa [createdBefore] using h
    · right; simpa [createdBefore] using h
  have htrans : ∀ a b c : EventRow, createdBefore a b = true →
      createdBefore b c = true → createdBefore a c = true := by
    intro a b c hab hbc
    simp only [createdBefore, decide_eq_true_eq] at *
    omega
  refine ⟨stableSortBy_perm _ _, ?_, ?_, ?_⟩
  · exact (stableSortBy_pairwise createdBefore htot htrans _).imp
      (fun h => by simpa [createdBefore] using h)
  · intro h
    simp [stream_run_events, h]
  · intro h
    simp [stream_run_events, h]

/-- C9 witness: a listener attaching after completion, with no persisted
events, still observes the synthesized terminal event. -/
theorem C9_event_replay_witness :
    stream_run_events { id := "r", status := "completed" } []
      = (sortEventsAsc (([] : List EventRow).filter
          (fun e => e.run_id = ({ id := "r", status := "completed" } : ApiRun).id))).map
            eventToSSE
        ++ [run_complete_event { id := "r", status := "completed" }] :=
  (C9_event_replay { id := "r", status := "completed" } []).2.2.1 rfl

theorem formatDirectionsFrom_length (papersLen : Nat) (gs : String) :
    ∀ (l : List DirectionItem) (i : Nat),
      (formatDirectionsFrom papersLen gs i l).length = l.length := by
  intro l
  induction l with
  | nil => intro i; rfl
  | cons d ds ih =>
    intro i
    simp [formatDirectionsFrom, ih]

theorem formatDirectionsFrom_defaults (papersLen : Nat) (gs : String) :
    ∀ (l : List DirectionItem) (i : Nat),
      List.Forall₂ (fun d e =>
          ((d : DirectionItem).feasibility_score = none →
            (e : FormattedDirection).feasibility_score = 7)
        ∧ (d.contribution_type = none → e.contribution_type = "method"))
        l (formatDirectionsFrom papersLen gs i l) := by
  intro l
  induction l with
  | nil => intro i; exact List.Forall₂.nil
  | cons d ds ih =>
    intro i
    refine List.Forall₂.cons ⟨?_, ?_⟩ (ih (i + 1))
    · intro h
      simp [formatOneDirection, h]
    · intro h
      simp [formatOneDirection, h]

/-- C10: a completed discovery run stores at most 5 directions (the
final state's list is truncated to 5 before formatting), and each stored
entry defaults a missing `feasibility_score` to 7 and a missing
`contribution_type` to `"method"`. -/
theorem C10_directions_capped_with_defaults (query : String)
    (run : RunRow DiscoveryResult) (fs : DiscState) (t : Nat)
    (h : errTruthy fs.error = false) :
    ∃ res, (run_discovery_agent query run (GraphOutcome.ok fs) t).1.result = some res
      ∧ res.directions.length ≤ 5
      ∧ List.Forall₂ (fun d e =>
            ((d : DirectionItem).feasibility_score = none →
              (e : FormattedDirection).feasibility_score = 7)
          ∧ (d.contribution_type = none → e.contribution_type = "method"))
          ((fs.directions.getD []).take 5) res.directions := by
  have hne : ¬ (errTruthy fs.error = true) := by simp [h]
  simp only [run_discovery_agent, if_neg hne]
  refine ⟨_, rfl, ?_, ?_⟩
  · rw [formatDirectionsFrom_length]
    simp [List.length_take]
  · exact formatDirectionsFrom_defaults _ _ _ 0

/-- C10 witness: six all-default directions in the final state come out
as five stored entries whose defaults hold. -/
theorem C10_directions_capped_with_defaults_witness :
    ∃ res, (run_discovery_agent "q" {} (GraphOutcome.ok c10_state) 0).1.result
        = some res
      ∧ res.directions.length ≤ 5
      ∧ List.Forall₂ (fun d e =>
            ((d : DirectionItem).feasibility_score = none →
              (e : FormattedDirection).feasibility_score = 7)
          ∧ (d.contribution_type = none → e.contribution_type = "method"))
          ((c10_state.directions.getD []).take 5) res.directions :=
  C10_directions_capped_with_defaults "q" {} c10_state 0 rfl

end CortexLab
